import Mathlib

/-!
Verification of the Congressional-Tracker service variants.

The repository is a set of near-duplicate Express servers.  Pure logic
(ZIP-to-state tables, cache freshness arithmetic, sorting, fallback
payload construction) is embedded directly; outbound HTTP calls are
modelled by outcome parameters (`Except` / dedicated outcome types),
since each handler only branches on whether a call succeeded and on the
parsed payload.
-/

namespace CongressTracker

/-- JavaScript `zipcode.substring(0, 2)` / `zip.substring(0, 3)` on the
character level: take the first `n` characters (the whole string when it
is shorter). -/
def strTake (n : Nat) (s : String) : String := String.mk (s.data.take n)

/-- Property access `obj[key]` on an object literal, and `Map.prototype.get`:
the value at the first matching key, or `undefined`/`null` (`none`). -/
def assocGet {β : Type} (tbl : List (String × β)) (key : String) : Option β :=
  match tbl with
  | [] => none
  | p :: t => if p.1 = key then some p.2 else assocGet t key

/-! ## Variant part_001 (third sub-file): `zipToState` table and `getStateFromZip` -/

/-- Static table from part_001: two-digit ZIP prefix to state code. -/
def zipToState1 : List (String × String) :=
  [("10", "NY"), ("11", "NY"), ("12", "NY"), ("13", "NY"), ("14", "NY"),
   ("20", "DC"), ("21", "MD"), ("22", "VA"), ("23", "VA"), ("24", "VA"),
   ("30", "GA"), ("31", "GA"), ("32", "FL"), ("33", "FL"), ("34", "FL"),
   ("40", "KY"), ("41", "KY"), ("42", "KY"), ("43", "OH"), ("44", "OH"),
   ("50", "VT"), ("51", "MA"), ("52", "MA"), ("53", "MA"), ("54", "MA"),
   ("60", "IL"), ("61", "IL"), ("62", "IL"), ("63", "MO"), ("64", "MO"),
   ("70", "LA"), ("71", "LA"), ("72", "AR"), ("73", "OK"), ("74", "OK"),
   ("80", "CO"), ("81", "CO"), ("82", "WY"), ("83", "ID"), ("84", "UT"),
   ("90", "CA"), ("91", "CA"), ("92", "CA"), ("93", "CA"), ("94", "CA"),
   ("95", "CA"), ("96", "CA"), ("97", "OR"), ("98", "WA"), ("99", "AK")]

/-- part_001 `getStateFromZip`: `zipToState[zipcode.substring(0,2)] || null`. -/
def getStateFromZip1 (zipcode : String) : Option String :=
  assocGet zipToState1 (strTake 2 zipcode)

/-! ## server.js (first sub-file): `zipToDistrict` table and `getLocationFromZip` -/

/-- Value stored in server.js's `zipToDistrict` table. -/
structure LocEntry where
  state : String
  region : String
  districts : List Nat
deriving Repr, DecidableEq

/-- Static table from server.js: two-digit ZIP prefix to state/region/districts. -/
def zipToDistrict : List (String × LocEntry) :=
  [("94", ⟨"CA", "north", [2, 4, 5, 11, 12, 13, 14]⟩),
   ("95", ⟨"CA", "north", [1, 3, 4, 6, 7, 8, 9]⟩),
   ("90", ⟨"CA", "south", [26, 27, 28, 29, 30, 31, 32, 33, 34, 35, 36, 37, 38, 39, 40]⟩),
   ("91", ⟨"CA", "south", [27, 28, 29, 30, 31, 32, 35, 38, 39, 40]⟩),
   ("92", ⟨"CA", "south", [48, 49, 50, 51, 52]⟩),
   ("93", ⟨"CA", "south", [24, 25, 26]⟩),
   ("10", ⟨"NY", "all", []⟩),
   ("11", ⟨"NY", "all", []⟩),
   ("20", ⟨"DC", "all", [0]⟩),
   ("30", ⟨"GA", "all", []⟩),
   ("60", ⟨"IL", "all", []⟩),
   ("98", ⟨"WA", "all", []⟩)]

/-- server.js `getLocationFromZip`: `zipToDistrict[zipcode.substring(0,2)] || null`. -/
def getLocationFromZip (zipcode : String) : Option LocEntry :=
  assocGet zipToDistrict (strTake 2 zipcode)

/-! ## server.js (fourth sub-file): `getRepFromMapping` -/

/-- Value stored in the fourth sub-file's `stateMapping` table. -/
structure StateMapEntry where
  state : String
  possibleDistricts : List Nat
deriving Repr, DecidableEq

/-- Static `stateMapping` table inside `getRepFromMapping`. -/
def stateMapping : List (String × StateMapEntry) :=
  [("10", ⟨"NY", [10, 11, 12, 13, 14, 15]⟩),
   ("11", ⟨"NY", [1, 2, 3, 4, 5, 6, 7, 8, 9]⟩),
   ("12", ⟨"NY", [16, 17, 18, 19, 20, 21]⟩),
   ("02", ⟨"MA", [1, 2, 3, 4, 5, 6, 7, 8, 9]⟩),
   ("06", ⟨"CT", [1, 2, 3, 4, 5]⟩),
   ("20", ⟨"DC", [0]⟩),
   ("21", ⟨"MD", [1, 2, 3, 4, 5, 6, 7, 8]⟩),
   ("22", ⟨"VA", [1, 2, 3, 4, 5, 6, 7, 8, 9, 10, 11]⟩),
   ("30", ⟨"GA", [1, 2, 3, 4, 5, 6, 7, 8, 9, 10, 11, 12, 13, 14]⟩),
   ("32", ⟨"FL", [1, 2, 3, 4, 5, 6, 7, 8, 9, 10]⟩),
   ("33", ⟨"FL", [11, 12, 13, 14, 15, 16, 17, 18, 19, 20, 21, 22, 23, 24, 25, 26, 27]⟩),
   ("60", ⟨"IL", [1, 2, 3, 4, 5, 6, 7, 8, 9]⟩),
   ("48", ⟨"TX", [1, 2, 3, 4, 5, 6, 7, 8, 9, 10]⟩),
   ("90", ⟨"CA", [26, 27, 28, 29, 30, 31, 32, 33, 34, 35, 36, 37, 38, 39, 40]⟩),
   ("94", ⟨"CA", [11, 12, 13, 14, 15, 16, 17, 18, 19, 20]⟩),
   ("98", ⟨"WA", [1, 2, 3, 4, 5, 6, 7, 8, 9, 10]⟩)]

/-- Result object built by `getRepFromMapping`.  The district is
`mapping.possibleDistricts[0]` (`none` models JavaScript `undefined` for
an empty list, which never occurs in the static table). -/
structure RepMapResult where
  state : String
  district : Option Nat
  needsRefinement : Bool
deriving Repr, DecidableEq

/-- server.js (fourth sub-file) `getRepFromMapping`: two-digit prefix lookup in
`stateMapping`; on a hit, returns the state with the first possible district
and `needsRefinement: true`; otherwise `null`. -/
def getRepFromMapping (zipcode : String) : Option RepMapResult :=
  match assocGet stateMapping (strTake 2 zipcode) with
  | some m => some ⟨m.state, m.possibleDistricts.head?, true⟩
  | none => none

/-! ## Variant part_002: exact table, three-digit table and `getStateFromZip` -/

/-- Value of part_002's exact `zipToState` table and of its lookup result:
a state together with an optional district (`null` models `none`). -/
structure ZipInfo where
  state : String
  district : Option Nat
deriving Repr, DecidableEq

/-- part_002 exact five-digit `zipToState` table. -/
def zipToState2 : List (String × ZipInfo) :=
  [("94901", ⟨"CA", some 2⟩),
   ("94903", ⟨"CA", some 2⟩),
   ("90210", ⟨"CA", some 36⟩),
   ("94102", ⟨"CA", some 11⟩)]

/-- part_002 three-digit `zipPrefixToState` fallback table. -/
def zipPre3ToState : List (String × String) :=
  [("946", "CA"), ("947", "CA"), ("948", "CA"), ("949", "CA"),
   ("100", "NY"), ("101", "NY"), ("102", "NY"), ("103", "NY"),
   ("200", "DC"), ("201", "VA"), ("202", "DC")]

/-- part_002 `getStateFromZip`: exact five-digit match first, then the
three-digit table (with `district: null`), then the default
`{ state: 'CA', district: null }`. -/
def getStateFromZip2 (zip : String) : ZipInfo :=
  match assocGet zipToState2 zip with
  | some info => info
  | none =>
    match assocGet zipPre3ToState (strTake 3 zip) with
    | some st => ⟨st, none⟩
    | none => ⟨"CA", none⟩

/-! ## server.js / part_001 `getStateFromAddress`

The source matches the address against the JavaScript regular expression
`\b([A-Z]{2})\b(?:\s+\d{5})?$` and falls back to `'CA'`.  The regex is
embedded character by character below; because `$` anchors the match at
the end of the string and the optional group starts with whitespace, a
match at position `i` is exactly: two uppercase letters at `i`, a word
boundary before them, and a suffix that is either empty or whitespace
followed by exactly five digits running to the end. -/

/-- JavaScript word character `[A-Za-z0-9_]`, the class used by `\b`. -/
def isWordChar (c : Char) : Bool := c.isAlpha || c.isDigit || c == '_'

/-- Uppercase ASCII letter, the `[A-Z]` class. -/
def isUpperAZ (c : Char) : Bool := 'A' ≤ c && c ≤ 'Z'

/-- JavaScript `\s` on the characters that can occur here (ASCII
whitespace and no-break space). -/
def isJsSpace (c : Char) : Bool :=
  c == ' ' || c == '\t' || c == '\n' || c == '\x0b' || c == '\x0c' || c == '\r' ||
    c == '\u00A0'

/-- The suffix after the two captured letters matches `\s+\d{5}` up to the
end of the string: at least one whitespace character followed by exactly
five digits. -/
def tailMatch (rest : List Char) : Bool :=
  decide (6 ≤ rest.length) &&
  (rest.take (rest.length - 5)).all isJsSpace &&
  (rest.drop (rest.length - 5)).all Char.isDigit

/-- The regex `\b([A-Z]{2})\b(?:\s+\d{5})?$` matches at position `i` of
the character list `cs`.  The trailing word boundary is implied: the
suffix is either empty or starts with whitespace, which is not a word
character. -/
def stateAbbrevMatchAt (cs : List Char) (i : Nat) : Bool :=
  match cs.get? i, cs.get? (i + 1) with
  | some c0, some c1 =>
    isUpperAZ c0 && isUpperAZ c1 &&
    (match i, cs.get? (i - 1) with
     | 0, _ => true
     | _ + 1, some p => !isWordChar p
     | _ + 1, none => true) &&
    (let rest := cs.drop (i + 2)
     rest.isEmpty || tailMatch rest)
  | _, _ => false

/-- server.js / part_001 `getStateFromAddress`: the captured group of the
leftmost regex match, defaulting to `'CA'` when the regex does not match. -/
def getStateFromAddress (address : String) : String :=
  let cs := address.data
  match (List.range cs.length).find? (fun i => stateAbbrevMatchAt cs i) with
  | some i => String.mk ((cs.drop i).take 2)
  | none => "CA"

/-! ## The in-process cache

Every variant declares `const cache = new Map()` and a duration
`CACHE_DURATION = 3600000` (written `60 * 60 * 1000` in two variants).
Entries always have the shape `{ data, timestamp: Date.now() }`. -/

/-- A cache entry `{ data, timestamp }`. -/
structure CacheEntry (α : Type) where
  data : α
  timestamp : Int
deriving Repr, DecidableEq

/-- The cache: a JavaScript `Map` from string keys to entries, in
insertion order. -/
abbrev CacheMap (α : Type) := List (String × CacheEntry α)

/-- One hour in milliseconds, `CACHE_DURATION` in every variant. -/
def CACHE_DURATION : Int := 3600000

/-- JavaScript `Map.prototype.set`: replace the value in place when the
key is present, append a new pair otherwise. -/
def mapSet {α : Type} (c : CacheMap α) (k : String) (v : CacheEntry α) : CacheMap α :=
  if (assocGet c k).isSome then
    c.map (fun p => if p.1 = k then (k, v) else p)
  else c ++ [(k, v)]

/-- The freshness test `Date.now() - cached.timestamp < CACHE_DURATION`
shared by `getCached` and every inline cache check. -/
def freshEntry {α : Type} (now : Int) (e : CacheEntry α) : Bool :=
  now - e.timestamp < CACHE_DURATION

/-- server.js `getCached`: return the data of a fresh entry, `null`
otherwise; the cache itself is not modified (there is no delete). -/
def getCached {α : Type} (c : CacheMap α) (now : Int) (key : String) : Option α :=
  match assocGet c key with
  | some e => if freshEntry now e then some e.data else none
  | none => none

/-- server.js `setCache`: `cache.set(key, { data, timestamp: Date.now() })`. -/
def setCache {α : Type} (c : CacheMap α) (now : Int) (key : String) (data : α) : CacheMap α :=
  mapSet c key ⟨data, now⟩

/-- One cache operation as it occurs in the sources: every write (the
`setCache` helpers and the three inline `cache.set` calls) stores
`{ data, timestamp: Date.now() }`, and reads (`cache.get` / `getCached`)
never mutate. -/
inductive CacheOp (α : Type) where
  | write (key : String) (data : α)
  | read (key : String)
deriving Repr, DecidableEq

/-- Effect of one clock-stamped operation on the cache. -/
def stepCache {α : Type} (c : CacheMap α) : Int × CacheOp α → CacheMap α
  | (now, .write k d) => setCache c now k d
  | (_, .read _) => c

/-- Run a sequence of clock-stamped cache operations. -/
def runCacheFrom {α : Type} (init : CacheMap α) (trace : List (Int × CacheOp α)) : CacheMap α :=
  trace.foldl stepCache init

/-! ## JSON payloads -/

/-- Ad-hoc JSON values, to state that fallback payloads are returned
verbatim. -/
inductive Json where
  | str (s : String)
  | num (n : Int)
  | bool (b : Bool)
  | null
  | arr (elems : List Json)
  | obj (fields : List (String × Json))
deriving Repr

/-- An Express response: status code (200 for a bare `res.json`) and
JSON body. -/
structure HttpResponse where
  status : Nat
  body : Json
deriving Repr

/-! ## Senators-first sort (Google Civic variants) -/

/-- A representative entry as collected by the Google Civic variants;
the sort inspects only `office`, the other rendered fields are carried
by `name` for stating stability and do not influence any claim. -/
structure CivicRep where
  name : String
  office : String
deriving Repr, DecidableEq

/-- The comparator literally passed to `representatives.sort`. -/
def repCompare (a b : CivicRep) : Int :=
  if a.office == "Senator" && b.office != "Senator" then -1
  else if a.office != "Senator" && b.office == "Senator" then 1
  else 0

/-- Stable insertion of `x` into `l`: strictly before the first element
`y` with `cmp x y < 0`, after everything that compares equal. -/
def insertCmp {α : Type} (cmp : α → α → Int) (x : α) : List α → List α
  | [] => [x]
  | y :: ys => if cmp x y < 0 then x :: y :: ys else y :: insertCmp cmp x ys

/-- `Array.prototype.sort` with a consistent comparator: ECMAScript
requires a stable, comparator-sorted permutation, which is unique for a
consistent comparator; stable insertion sort computes it. -/
def jsSort {α : Type} (cmp : α → α → Int) (l : List α) : List α :=
  l.foldl (fun acc x => insertCmp cmp x acc) []

/-- The `representatives.sort(...)` call of the Google Civic variants. -/
def sortSenatorsFirst (l : List CivicRep) : List CivicRep :=
  jsSort repCompare l

/-! ## Fallback payloads and data endpoints -/

/-- The hardcoded 500 fallback of the fourth server.js sub-file's
`/api/congressman/:zipcode` catch block. -/
def congressmanFallback : Json :=
  .obj [("error", .bool true),
        ("message", .str "Unable to find representative data"),
        ("representative", .obj
          [("name", .str "Data Temporarily Unavailable"),
           ("party", .str "Unknown"),
           ("state", .str "Unknown"),
           ("district", .str "Unknown"),
           ("office", .str "House of Representatives"),
           ("phone", .str "(202) 225-0000"),
           ("website", .str "https://www.house.gov")]),
        ("funding", .obj [("totalRaised", .str "Loading..."), ("sources", .arr [])]),
        ("votingRecord", .arr []),
        ("calendar", .arr []),
        ("transcripts", .arr [])]

/-- The fourth server.js sub-file's `/api/congressman/:zipcode` at the
outcome level: the try block either produces a success payload or
throws; the catch block responds 500 with the hardcoded fallback. -/
def congressmanHandler (outcome : Except Unit Json) : HttpResponse :=
  match outcome with
  | .ok payload => ⟨200, payload⟩
  | .error _ => ⟨500, congressmanFallback⟩

/-- The initial `fundingData` of part_003's `/api/campaign-finance/:name`,
returned whenever the FEC chain does not complete. -/
def naFunding : Json :=
  .obj [("totalRaised", .str "N/A"),
        ("totalSpent", .str "N/A"),
        ("cashOnHand", .str "N/A"),
        ("sources", .arr [])]

/-- Digits already reversed (least significant first); insert a comma
after every third digit.  `k` counts digits emitted since the last
comma. -/
def commaRev : List Char → Nat → List Char
  | [], _ => []
  | c :: cs, k => if k == 3 then ',' :: c :: commaRev cs 1 else c :: commaRev cs (k + 1)

/-- `Number.prototype.toLocaleString` on a nonnegative integer: decimal
digits grouped in threes by commas. -/
def toLocaleString (n : Nat) : String :=
  String.mk (commaRev (Nat.toDigits 10 n).reverse 0).reverse

/-- The FEC totals fields read by part_003, each defaulted with `|| 0`
in the source (`none` models an absent field). -/
structure Finances where
  receipts : Option Nat
  disbursements : Option Nat
  cash_on_hand_end_period : Option Nat
  individual_contributions : Option Nat
  other_political_committee_contributions : Option Nat
  party_committee_contributions : Option Nat
deriving Repr, DecidableEq

/-- `Math.round((s.amount / totalReceipts) * 100)` over exact rationals:
`⌊100 a / t + 1 / 2⌋`. -/
def pctRound (amount total : Nat) : Nat := (200 * amount + total) / (2 * total)

/-- A `sources` element before formatting. -/
structure FundingSource where
  name : String
  amount : Nat
  icon : String
deriving Repr, DecidableEq

/-- The reassigned `fundingData` of part_003 when FEC totals were found:
formatted totals plus the positive sources with formatted amounts and
rounded percentages. -/
def buildFunding (f : Finances) : Json :=
  let totalReceipts := f.receipts.getD 0
  let sources : List FundingSource :=
    [⟨"Individual Contributions", f.individual_contributions.getD 0, "👤"⟩,
     ⟨"PAC Contributions", f.other_political_committee_contributions.getD 0, "🏢"⟩,
     ⟨"Party Contributions", f.party_committee_contributions.getD 0, "🏛️"⟩]
  .obj [("totalRaised", .str ("$" ++ toLocaleString totalReceipts)),
        ("totalSpent", .str ("$" ++ toLocaleString (f.disbursements.getD 0))),
        ("cashOnHand", .str ("$" ++ toLocaleString (f.cash_on_hand_end_period.getD 0))),
        ("sources", .arr ((sources.filter (fun s => 0 < s.amount)).map (fun s =>
          .obj [("name", .str s.name),
                ("amount", .str ("$" ++ toLocaleString s.amount)),
                ("icon", .str s.icon),
                ("percentage",
                 .num (if 0 < totalReceipts then (pctRound s.amount totalReceipts : Int) else 0))])))]

/-- Outcome of part_003's chain of FEC calls: the try block throws
(every throwing step precedes the reassignment of `fundingData`), or it
completes without reassigning `fundingData` (missing key, non-OK
response, no candidate or no finance record), or finance totals were
found. -/
inductive FecOutcome where
  | throws
  | noData
  | found (f : Finances)
deriving Repr

/-- part_003 `/api/campaign-finance/:name`: both the fall-through path
and the catch path answer 200 with the untouched `fundingData`. -/
def campaignFinanceHandler (outcome : FecOutcome) : HttpResponse :=
  match outcome with
  | .throws => ⟨200, naFunding⟩
  | .noData => ⟨200, naFunding⟩
  | .found f => ⟨200, buildFunding f⟩

/-! ## `/api/representatives`, first variant (server.js 37-330, part_001 16-352) -/

/-- Representative object of the first variant, with the fields of its
hardcoded placeholder entries. -/
structure RepV1 where
  name : String
  type : String
  party : String
  state : String
  district : String
  phone : String
  website : String
  office : String
  note : String
deriving Repr, DecidableEq

/-- The `Unable to load representatives` placeholder pushed when the try
block completed with an empty array. -/
def unableToLoadRep (address : String) : RepV1 :=
  { name := "Unable to load representatives"
    type := "Error"
    party := "N/A"
    state := getStateFromAddress address
    district := "N/A"
    phone := "Please try again"
    website := "https://www.house.gov/representatives/find-your-representative"
    office := "Data temporarily unavailable"
    note := "The congressional data service is temporarily unavailable. Please try again in a few moments or use the House.gov lookup tool." }

/-- Body of `getRepresentativesByAddress` past the cache check: the two
fetch blocks are abstracted into an outcome (`.error` when the try block
throws and the function rethrows, `.ok l` when it completes having
pushed `l`); on completion the placeholder is appended to an empty
array, the result is stored under `reps-<address>` and returned. -/
def fetchAndCache (c : CacheMap (List RepV1)) (now : Int) (address : String)
    (outcome : Except Unit (List RepV1)) : Except Unit (List RepV1 × CacheMap (List RepV1)) :=
  match outcome with
  | .error _ => .error ()
  | .ok fetched =>
    let reps := if fetched.isEmpty then [unableToLoadRep address] else fetched
    .ok (reps, mapSet c ("reps-" ++ address) ⟨reps, now⟩)

/-- server.js / part_001 `getRepresentativesByAddress`: answer from a
fresh `reps-<address>` cache entry, otherwise fetch, store and return. -/
def getRepresentativesByAddress (c : CacheMap (List RepV1)) (now : Int) (address : String)
    (outcome : Except Unit (List RepV1)) : Except Unit (List RepV1 × CacheMap (List RepV1)) :=
  match assocGet c ("reps-" ++ address) with
  | some e =>
    if freshEntry now e then .ok (e.data, c)
    else fetchAndCache c now address outcome
  | none => fetchAndCache c now address outcome

/-- JavaScript falsiness of `req.query.address`: absent (`undefined`) or
the empty string. -/
def jsFalsy (q : Option String) : Bool :=
  match q with
  | none => true
  | some s => s.isEmpty

/-- Rendering of a first-variant representative in `res.json`. -/
def repV1ToJson (r : RepV1) : Json :=
  .obj [("name", .str r.name), ("type", .str r.type), ("party", .str r.party),
        ("state", .str r.state), ("district", .str r.district), ("phone", .str r.phone),
        ("website", .str r.website), ("office", .str r.office), ("note", .str r.note)]

/-- Result of one first-variant `/api/representatives` request: the
response, the cache afterwards, and whether control reached an outbound
fetch block. -/
structure HandlerResult where
  response : HttpResponse
  cache : CacheMap (List RepV1)
  madeOutboundCall : Bool
deriving Repr

/-- First variant `/api/representatives`: guard on a falsy address
(returns 400 before any fetch or cache access), then delegate to
`getRepresentativesByAddress`; 500 when it throws.  A fresh cache hit
answers without fetching; every other non-guarded path runs a fetch. -/
def representativesHandlerV1 (c : CacheMap (List RepV1)) (now : Int)
    (address : Option String) (outcome : Except Unit (List RepV1)) : HandlerResult :=
  if jsFalsy address then
    ⟨⟨400, .obj [("error", .str "Address parameter is required")]⟩, c, false⟩
  else
    let addr := address.getD ""
    let hit :=
      match assocGet c ("reps-" ++ addr) with
      | some e => freshEntry now e
      | none => false
    match getRepresentativesByAddress c now addr outcome with
    | .ok (reps, c1) =>
      ⟨⟨200, .obj [("representatives", .arr (reps.map repV1ToJson))]⟩, c1, !hit⟩
    | .error _ =>
      ⟨⟨500, .obj [("error", .str "Unable to fetch representatives"),
                   ("message", .str "Please check your address and try again")]⟩, c, !hit⟩

/-! ## `/api/representatives`, Google Civic variant (server.js 1151 ff., part_001 355 ff.) -/

/-- Outcome of the Google Civic fetch: the try block throws with an
error message, or the provider answers non-OK (the handler returns 200
with an error body built from the provider's error JSON, modelled as
given), or it answers OK with a list of officials. -/
inductive CivicOutcome where
  | throws (msg : String)
  | httpError (errorBody : Json)
  | ok (reps : List CivicRep) (normalized : Json)
deriving Repr

/-- Google Civic variant `/api/representatives`: falsy-address guard
(400), missing-key guard (200 with an error body), then the civic fetch;
collected representatives are sorted senators-first.  This variant has
no cache; the second component records whether an outbound call was
made. -/
def representativesHandlerV2 (address : Option String) (apiKey : Option String)
    (outcome : CivicOutcome) : HttpResponse × Bool :=
  if jsFalsy address then
    (⟨400, .obj [("error", .bool true), ("message", .str "Address is required")]⟩, false)
  else if apiKey.isNone then
    (⟨200, .obj [("error", .bool true),
                 ("message", .str "Google Civic API key not configured. Please add GOOGLE_CIVIC_API_KEY to environment variables."),
                 ("representatives", .arr [])]⟩, false)
  else
    match outcome with
    | .throws msg =>
      (⟨200, .obj [("error", .bool true),
                   ("message", .str ("System error: " ++ msg)),
                   ("representatives", .arr [])]⟩, true)
    | .httpError errorBody => (⟨200, errorBody⟩, true)
    | .ok reps normalized =>
      (⟨200, .obj [("representatives", .arr ((sortSenatorsFirst reps).map (fun r =>
                      .obj [("name", .str r.name), ("office", .str r.office)]))),
                   ("address", .str (address.getD "")),
                   ("normalizedAddress", normalized),
                   ("method", .str "Google Civic API - Exact Match"),
                   ("accuracy", .str "Perfect")]⟩, true)

/-! ## Helper lemmas about the cache map -/

lemma assocGet_map_replace {α : Type} {c : CacheMap α} {k : String} (v : CacheEntry α)
    (h : (assocGet c k).isSome) :
    assocGet (c.map fun p => if p.1 = k then (k, v) else p) k = some v := by
  induction c with
  | nil => simp [assocGet] at h
  | cons p t ih =>
    by_cases hp : p.1 = k
    · simp [assocGet, hp]
    · rw [assocGet] at h
      simp only [hp, if_false] at h
      simpa [assocGet, hp] using ih h

lemma assocGet_map_replace_ne {α : Type} (c : CacheMap α) {k k' : String} (v : CacheEntry α)
    (hne : k' ≠ k) :
    assocGet (c.map fun p => if p.1 = k then (k, v) else p) k' = assocGet c k' := by
  induction c with
  | nil => simp [assocGet]
  | cons p t ih =>
    by_cases hp : p.1 = k
    · have hkk' : ¬k = k' := fun h => hne h.symm
      have hpk' : ¬p.1 = k' := by rw [hp]; exact hkk'
      simp [assocGet, hp, hkk', hpk', ih]
    · by_cases hp' : p.1 = k'
      · simp [assocGet, hp, hp', hne]
      · simp [assocGet, hp, hp', ih]

lemma assocGet_append_self {α : Type} {c : CacheMap α} {k : String} (v : CacheEntry α)
    (h : assocGet c k = none) :
    assocGet (c ++ [(k, v)]) k = some v := by
  induction c with
  | nil => simp [assocGet]
  | cons p t ih =>
    by_cases hp : p.1 = k
    · rw [assocGet] at h
      simp [hp] at h
    · rw [assocGet] at h
      simp only [hp, if_false] at h
      simpa [assocGet, hp] using ih h

lemma assocGet_append_ne {α : Type} (c : CacheMap α) {k k' : String} (v : CacheEntry α)
    (hne : k' ≠ k) :
    assocGet (c ++ [(k, v)]) k' = assocGet c k' := by
  induction c with
  | nil => simp [assocGet, show ¬k = k' from fun h => hne h.symm]
  | cons p t ih => by_cases hp : p.1 = k' <;> simp [assocGet, hp, ih]

lemma assocGet_mapSet_self {α : Type} (c : CacheMap α) (k : String) (v : CacheEntry α) :
    assocGet (mapSet c k v) k = some v := by
  unfold mapSet
  split
  case isTrue h => exact assocGet_map_replace v h
  case isFalse h => exact assocGet_append_self v (Option.not_isSome_iff_eq_none.mp h)

lemma assocGet_mapSet_ne {α : Type} (c : CacheMap α) {k k' : String} (v : CacheEntry α)
    (hne : k' ≠ k) :
    assocGet (mapSet c k v) k' = assocGet c k' := by
  unfold mapSet
  split
  · exact assocGet_map_replace_ne c v hne
  · exact assocGet_append_ne c v hne

lemma length_le_mapSet {α : Type} (c : CacheMap α) (k : String) (v : CacheEntry α) :
    c.length ≤ (mapSet c k v).length := by
  unfold mapSet
  split <;> simp

lemma isSome_assocGet_mapSet {α : Type} (c : CacheMap α) {k' : String} (k : String)
    (v : CacheEntry α) (h : (assocGet c k').isSome) :
    (assocGet (mapSet c k v) k').isSome := by
  by_cases hk : k' = k
  · subst hk
    simp [assocGet_mapSet_self]
  · rwa [assocGet_mapSet_ne c v hk]

lemma assocGet_runCacheFrom {α : Type} (trace : List (Int × CacheOp α)) :
    ∀ (init : CacheMap α) (key : String) (e : CacheEntry α),
      assocGet (runCacheFrom init trace) key = some e →
      assocGet init key = some e ∨
        ∃ t, (t, CacheOp.write key e.data) ∈ trace ∧ e.timestamp = t := by
  induction trace with
  | nil => exact fun init key e h => Or.inl h
  | cons step rest ih =>
    intro init key e h
    have h1 := ih (stepCache init step) key e h
    rcases h1 with h1 | ⟨t, ht, hts⟩
    · obtain ⟨tstep, op⟩ := step
      cases op with
      | read k0 => exact Or.inl h1
      | write k0 d =>
        by_cases hk : key = k0
        · subst hk
          rw [stepCache, setCache, assocGet_mapSet_self] at h1
          obtain rfl := Option.some_injective _ h1.symm
          exact Or.inr ⟨tstep, List.mem_cons_self _ _, rfl⟩
        · rw [stepCache, setCache, assocGet_mapSet_ne _ _ hk] at h1
          exact Or.inl h1
    · exact Or.inr ⟨t, List.mem_cons_of_mem _ ht, hts⟩

lemma length_le_runCacheFrom {α : Type} (trace : List (Int × CacheOp α)) :
    ∀ init : CacheMap α, init.length ≤ (runCacheFrom init trace).length := by
  induction trace with
  | nil => exact fun init => Nat.le_refl _
  | cons step rest ih =>
    intro init
    refine Nat.le_trans ?_ (ih (stepCache init step))
    obtain ⟨t, op⟩ := step
    cases op with
    | read _ => exact Nat.le_refl _
    | write k d => exact length_le_mapSet init k _

lemma isSome_assocGet_runCacheFrom {α : Type} (trace : List (Int × CacheOp α)) :
    ∀ (init : CacheMap α) (key : String),
      (assocGet init key).isSome → (assocGet (runCacheFrom init trace) key).isSome := by
  induction trace with
  | nil => exact fun init key h => h
  | cons step rest ih =>
    intro init key h
    refine ih (stepCache init step) key ?_
    obtain ⟨t, op⟩ := step
    cases op with
    | read _ => exact h
    | write k d => exact isSome_assocGet_mapSet init k _ h

/-! ## Helper lemmas about the senators-first sort -/

/-- The kind the comparator distinguishes. -/
def isSen (r : CivicRep) : Bool := r.office == "Senator"

lemma repCompare_sen_sen {x y : CivicRep} (hx : isSen x = true) (hy : isSen y = true) :
    repCompare x y = 0 := by
  have hx' : x.office = "Senator" := by simpa [isSen] using hx
  have hy' : y.office = "Senator" := by simpa [isSen] using hy
  simp [repCompare, hx', hy']

lemma repCompare_sen_non {x y : CivicRep} (hx : isSen x = true) (hy : isSen y = false) :
    repCompare x y = -1 := by
  have hx' : x.office = "Senator" := by simpa [isSen] using hx
  have hy' : ¬y.office = "Senator" := by simpa [isSen] using hy
  simp [repCompare, hx', hy']

lemma repCompare_non {x : CivicRep} (hx : isSen x = false) (y : CivicRep) :
    ¬repCompare x y < 0 := by
  have hx' : ¬x.office = "Senator" := by simpa [isSen] using hx
  by_cases hy : y.office = "Senator" <;> simp [repCompare, hx', hy]

lemma insertCmp_sen (x : CivicRep) (hx : isSen x = true) :
    ∀ (A B : List CivicRep), (∀ a ∈ A, isSen a = true) → (∀ b ∈ B, isSen b = false) →
      insertCmp repCompare x (A ++ B) = A ++ x :: B := by
  intro A
  induction A with
  | nil =>
    intro B _ hB
    cases B with
    | nil => rfl
    | cons b bs =>
      have hb := hB b (List.mem_cons_self _ _)
      rw [List.nil_append, insertCmp, if_pos (by rw [repCompare_sen_non hx hb]; decide)]
      rfl
  | cons a A' ih =>
    intro B hA hB
    have ha := hA a (List.mem_cons_self _ _)
    rw [List.cons_append, insertCmp,
      if_neg (by rw [repCompare_sen_sen hx ha]; decide),
      ih B (fun a' h => hA a' (List.mem_cons_of_mem _ h)) hB]
    rfl

lemma insertCmp_non (x : CivicRep) (hx : isSen x = false) :
    ∀ l : List CivicRep, insertCmp repCompare x l = l ++ [x] := by
  intro l
  induction l with
  | nil => rfl
  | cons y ys ih => rw [insertCmp, if_neg (repCompare_non hx y), ih]; rfl

lemma foldl_insert_partition :
    ∀ (l A B : List CivicRep), (∀ a ∈ A, isSen a = true) → (∀ b ∈ B, isSen b = false) →
      l.foldl (fun acc x => insertCmp repCompare x acc) (A ++ B) =
        (A ++ l.filter isSen) ++ (B ++ l.filter (fun r => !isSen r)) := by
  intro l
  induction l with
  | nil => intro A B _ _; simp
  | cons x xs ih =>
    intro A B hA hB
    rw [List.foldl_cons]
    by_cases hx : isSen x = true
    · rw [insertCmp_sen x hx A B hA hB,
        show A ++ x :: B = (A ++ [x]) ++ B by simp,
        ih (A ++ [x]) B ?_ hB]
      · simp [List.filter_cons, hx]
      · intro a ha
        rcases List.mem_append.mp ha with h | h
        · exact hA a h
        · simp only [List.mem_singleton] at h
          exact h ▸ hx
    · have hx' : isSen x = false := by simpa using hx
      rw [insertCmp_non x hx' (A ++ B),
        show (A ++ B) ++ [x] = A ++ (B ++ [x]) by simp,
        ih A (B ++ [x]) hA ?_]
      · simp [List.filter_cons, hx']
      · intro b hb
        rcases List.mem_append.mp hb with h | h
        · exact hB b h
        · simp only [List.mem_singleton] at h
          exact h ▸ hx'

lemma sortSenatorsFirst_eq (l : List CivicRep) :
    sortSenatorsFirst l = l.filter isSen ++ l.filter (fun r => !isSen r) := by
  have h := foldl_insert_partition l [] [] (by simp) (by simp)
  simpa [sortSenatorsFirst, jsSort] using h

/-! ## Claim theorems -/

/-- C1: for every ZIP code string whose two-digit prefix is a key of the
variant's static ZIP table, the lookup (part_001's `getStateFromZip`,
server.js's `getLocationFromZip`, the fourth sub-file's
`getRepFromMapping`) returns the state code that the table maps that
prefix to.  part_002's tables carry only three- and five-digit keys, so
the two-digit-prefix statement is vacuous for that variant. -/
theorem zip_table_hit_returns_mapped_state (zip : String) :
    (∀ st : String, assocGet zipToState1 (strTake 2 zip) = some st →
        getStateFromZip1 zip = some st) ∧
    (∀ e : LocEntry, assocGet zipToDistrict (strTake 2 zip) = some e →
        ∃ r, getLocationFromZip zip = some r ∧ r.state = e.state) ∧
    (∀ m : StateMapEntry, assocGet stateMapping (strTake 2 zip) = some m →
        ∃ r, getRepFromMapping zip = some r ∧ r.state = m.state) := by
  refine ⟨fun st h => h, fun e h => ⟨e, h, rfl⟩, fun m h => ?_⟩
  exact ⟨⟨m.state, m.possibleDistricts.head?, true⟩, by simp [getRepFromMapping, h], rfl⟩

/-- Witness for C1: ZIP 90210 hits the "90" rows, ZIP 10001 hits the
"10" row of `stateMapping`. -/
theorem zip_table_hit_returns_mapped_state_witness :
    getStateFromZip1 "90210" = some "CA" ∧
    (∃ r, getLocationFromZip "90210" = some r ∧
        r.state = (⟨"CA", "south",
          [26, 27, 28, 29, 30, 31, 32, 33, 34, 35, 36, 37, 38, 39, 40]⟩ : LocEntry).state) ∧
    (∃ r, getRepFromMapping "10001" = some r ∧
        r.state = (⟨"NY", [10, 11, 12, 13, 14, 15]⟩ : StateMapEntry).state) :=
  ⟨(zip_table_hit_returns_mapped_state "90210").1 "CA" (by decide),
   (zip_table_hit_returns_mapped_state "90210").2.1 _ (by decide),
   (zip_table_hit_returns_mapped_state "10001").2.2 _ (by decide)⟩

/-- C2 counterexample: ZIP 00000 has two-digit prefix 00, absent from
part_001's table, and part_001's `getStateFromZip` returns `null`
(`none`) there — not the default "CA" the claim asserts for every
ZIP/address-to-state lookup. -/
theorem absent_zip_returns_null_not_CA :
    getStateFromZip1 "00000" = none ∧ getStateFromZip1 "00000" ≠ some "CA" := by
  exact ⟨by decide, by decide⟩

/-- C2 (amended): the default "CA" holds for part_002's
`getStateFromZip` (absent from both of its tables) and for
`getStateFromAddress` (state regex matches nowhere); part_001's
`getStateFromZip` instead returns `null` for an absent prefix. -/
theorem absent_zip_default_behavior :
    (∀ zip : String, assocGet zipToState2 zip = none →
        assocGet zipPre3ToState (strTake 3 zip) = none →
        getStateFromZip2 zip = ⟨"CA", none⟩) ∧
    (∀ address : String,
        (∀ i ∈ List.range address.data.length,
          stateAbbrevMatchAt address.data i = false) →
        getStateFromAddress address = "CA") ∧
    (∀ zip : String, assocGet zipToState1 (strTake 2 zip) = none →
        getStateFromZip1 zip = none) := by
  refine ⟨fun zip h1 h2 => by simp [getStateFromZip2, h1, h2], fun address h => ?_,
    fun zip h => h⟩
  have hnone : (List.range address.data.length).find?
      (fun i => stateAbbrevMatchAt address.data i) = none :=
    List.find?_eq_none.mpr (fun i hi => by simp [h i hi])
  simp only [getStateFromAddress]
  rw [hnone]

/-- Witness for C2 (amended) at ZIP 00000 and address "hello". -/
theorem absent_zip_default_behavior_witness :
    getStateFromZip2 "00000" = ⟨"CA", none⟩ ∧
    getStateFromAddress "hello" = "CA" ∧
    getStateFromZip1 "00000" = none :=
  ⟨absent_zip_default_behavior.1 "00000" (by decide) (by decide),
   absent_zip_default_behavior.2.1 "hello" (by decide),
   absent_zip_default_behavior.2.2 "00000" (by decide)⟩

/-- C3: a stored entry whose age exceeds `CACHE_DURATION` is treated as
expired — `getCached` returns `null`, and the inline check in
`getRepresentativesByAddress` falls through to the refetch path — while
an entry whose age is strictly within the duration is returned from the
cache without refetching. -/
theorem cache_expiry_semantics :
    (∀ (α : Type) (c : CacheMap α) (now : Int) (key : String) (e : CacheEntry α),
        assocGet c key = some e →
        (CACHE_DURATION < now - e.timestamp → getCached c now key = none) ∧
        (now - e.timestamp < CACHE_DURATION → getCached c now key = some e.data)) ∧
    (∀ (c : CacheMap (List RepV1)) (now : Int) (address : String)
        (outcome : Except Unit (List RepV1)) (e : CacheEntry (List RepV1)),
        assocGet c ("reps-" ++ address) = some e →
        (CACHE_DURATION < now - e.timestamp →
          getRepresentativesByAddress c now address outcome =
            fetchAndCache c now address outcome) ∧
        (now - e.timestamp < CACHE_DURATION →
          getRepresentativesByAddress c now address outcome = .ok (e.data, c))) := by
  constructor
  · intro α c now key e h
    refine ⟨fun hstale => ?_, fun hfresh => ?_⟩
    · have hst : freshEntry now e = false := by
        simp only [freshEntry, decide_eq_false_iff_not]
        exact not_lt.mpr (le_of_lt hstale)
      simp [getCached, h, hst]
    · have hfr : freshEntry now e = true := by
        simp only [freshEntry, decide_eq_true_eq]
        exact hfresh
      simp [getCached, h, hfr]
  · intro c now address outcome e h
    refine ⟨fun hstale => ?_, fun hfresh => ?_⟩
    · have hst : freshEntry now e = false := by
        simp only [freshEntry, decide_eq_false_iff_not]
        exact not_lt.mpr (le_of_lt hstale)
      simp [getRepresentativesByAddress, h, hst]
    · have hfr : freshEntry now e = true := by
        simp only [freshEntry, decide_eq_true_eq]
        exact hfresh
      simp [getRepresentativesByAddress, h, hfr]

/-- Witness for C3: an entry written at time 0 misses at one hour plus a
millisecond and hits at time 100, for `getCached` and for
`getRepresentativesByAddress`. -/
theorem cache_expiry_semantics_witness :
    getCached ([("k", ⟨(5 : Nat), 0⟩)] : CacheMap Nat) 3600001 "k" = none ∧
    getCached ([("k", ⟨(5 : Nat), 0⟩)] : CacheMap Nat) 100 "k" = some 5 ∧
    getRepresentativesByAddress [("reps-a", ⟨[], 0⟩)] 3600001 "a" (.ok []) =
      fetchAndCache [("reps-a", ⟨[], 0⟩)] 3600001 "a" (.ok []) ∧
    getRepresentativesByAddress [("reps-a", ⟨[], 0⟩)] 100 "a" (.ok []) =
      .ok ([], [("reps-a", ⟨[], 0⟩)]) :=
  ⟨(cache_expiry_semantics.1 Nat [("k", ⟨5, 0⟩)] 3600001 "k" ⟨5, 0⟩ (by decide)).1 (by decide),
   (cache_expiry_semantics.1 Nat [("k", ⟨5, 0⟩)] 100 "k" ⟨5, 0⟩ (by decide)).2 (by decide),
   (cache_expiry_semantics.2 [("reps-a", ⟨[], 0⟩)] 3600001 "a" (.ok []) ⟨[], 0⟩
      (by decide)).1 (by decide),
   (cache_expiry_semantics.2 [("reps-a", ⟨[], 0⟩)] 100 "a" (.ok []) ⟨[], 0⟩
      (by decide)).2 (by decide)⟩

/-- C4: when a data endpoint's try block throws, the response is the
variant's hardcoded fallback verbatim — the fourth server.js sub-file's
`/api/congressman/:zipcode` answers 500 with the
"Data Temporarily Unavailable" representative and the pre-built funding
stub, and part_003's `/api/campaign-finance/:name` answers 200 with the
pre-built "N/A" funding object. -/
theorem downstream_failure_returns_fallback :
    congressmanHandler (.error ()) =
      ⟨500, .obj [("error", .bool true),
            ("message", .str "Unable to find representative data"),
            ("representative", .obj
              [("name", .str "Data Temporarily Unavailable"),
               ("party", .str "Unknown"),
               ("state", .str "Unknown"),
               ("district", .str "Unknown"),
               ("office", .str "House of Representatives"),
               ("phone", .str "(202) 225-0000"),
               ("website", .str "https://www.house.gov")]),
            ("funding", .obj [("totalRaised", .str "Loading..."), ("sources", .arr [])]),
            ("votingRecord", .arr []),
            ("calendar", .arr []),
            ("transcripts", .arr [])]⟩ ∧
    campaignFinanceHandler .throws =
      ⟨200, .obj [("totalRaised", .str "N/A"),
            ("totalSpent", .str "N/A"),
            ("cashOnHand", .str "N/A"),
            ("sources", .arr [])]⟩ :=
  ⟨rfl, rfl⟩

/-- C5: after the Google Civic variants' sort, every entry with office
"Senator" precedes every entry with office "Representative" (indeed
every non-Senator entry), and entries of the same kind keep their
relative order. -/
theorem civic_sort_senators_first (l : List CivicRep) :
    (∀ (i j : Nat) (r s : CivicRep),
        (sortSenatorsFirst l)[i]? = some r → (sortSenatorsFirst l)[j]? = some s →
        r.office ≠ "Senator" → s.office = "Senator" → j < i) ∧
    (sortSenatorsFirst l).filter (fun r => r.office == "Senator") =
      l.filter (fun r => r.office == "Senator") ∧
    (sortSenatorsFirst l).filter (fun r => r.office != "Senator") =
      l.filter (fun r => r.office != "Senator") := by
  have hS : ∀ a ∈ l.filter isSen, isSen a = true := fun a ha => List.of_mem_filter ha
  have hN : ∀ b ∈ l.filter (fun r => !isSen r), isSen b = false := by
    intro b hb
    have := List.of_mem_filter hb
    simpa using this
  refine ⟨?_, ?_, ?_⟩
  · rw [sortSenatorsFirst_eq]
    intro i j r s hi hj hr hs
    have hjlt : j < (l.filter isSen).length := by
      by_contra hj'
      push_neg at hj'
      rw [List.getElem?_append_right hj'] at hj
      have hmem := List.getElem?_mem hj
      have hx := hN s hmem
      simp only [isSen, beq_eq_false_iff_ne, ne_eq] at hx
      exact hx hs
    have hile : (l.filter isSen).length ≤ i := by
      by_contra hi'
      push_neg at hi'
      rw [List.getElem?_append_left hi'] at hi
      have hmem := List.getElem?_mem hi
      have hx := hS r hmem
      simp only [isSen, beq_iff_eq] at hx
      exact hr hx
    exact lt_of_lt_of_le hjlt hile
  · rw [sortSenatorsFirst_eq, List.filter_append]
    have h1 : (l.filter isSen).filter (fun r => r.office == "Senator") = l.filter isSen :=
      List.filter_eq_self.mpr (fun a ha => hS a ha)
    have h2 : (l.filter (fun r => !isSen r)).filter (fun r => r.office == "Senator") = [] :=
      List.filter_eq_nil_iff.mpr (fun a ha => by
        have hb := hN a ha
        simp only [isSen] at hb
        simp [hb])
    rw [h1, h2, List.append_nil]
    rfl
  · rw [sortSenatorsFirst_eq, List.filter_append]
    have h1 : (l.filter isSen).filter (fun r => r.office != "Senator") = [] :=
      List.filter_eq_nil_iff.mpr (fun a ha => by
        have := hS a ha
        simp [isSen] at this
        simp [this])
    have h2 : (l.filter (fun r => !isSen r)).filter (fun r => r.office != "Senator") =
        l.filter (fun r => !isSen r) :=
      List.filter_eq_self.mpr (fun a ha => by
        have := hN a ha
        simp [isSen] at this
        simp [this])
    rw [h1, h2, List.nil_append]
    rfl

/-- Witness for C5 on a two-element list with the Representative first:
the sort puts the Senator at index 0 and keeps the filtered kinds. -/
theorem civic_sort_senators_first_witness :
    (0 : Nat) < 1 ∧
    (sortSenatorsFirst [⟨"r1", "Representative"⟩, ⟨"s1", "Senator"⟩]).filter
      (fun r => r.office == "Senator") = [⟨"s1", "Senator"⟩] :=
  ⟨(civic_sort_senators_first [⟨"r1", "Representative"⟩, ⟨"s1", "Senator"⟩]).1 1 0
      ⟨"r1", "Representative"⟩ ⟨"s1", "Senator"⟩ (by decide) (by decide) (by decide) rfl,
   ((civic_sort_senators_first [⟨"r1", "Representative"⟩, ⟨"s1", "Senator"⟩]).2.1).trans
      (by decide)⟩

/-- C6: every cache write stores an object `{ data, timestamp }` whose
timestamp is the clock value at the moment of insertion: `setCache` (and
each inline `cache.set`, which executes the same expression) stores
`{ data, timestamp: now }`, and over any run every entry present in the
cache was put there by some write of its data at the time its timestamp
records. -/
theorem cache_writes_record_insertion_time :
    (∀ (α : Type) (c : CacheMap α) (now : Int) (key : String) (d : α),
        assocGet (setCache c now key d) key = some ⟨d, now⟩) ∧
    (∀ (α : Type) (trace : List (Int × CacheOp α)) (key : String) (e : CacheEntry α),
        assocGet (runCacheFrom [] trace) key = some e →
        ∃ t, (t, CacheOp.write key e.data) ∈ trace ∧ e.timestamp = t) := by
  constructor
  · intro α c now key d
    exact assocGet_mapSet_self c key ⟨d, now⟩
  · intro α trace key e h
    rcases assocGet_runCacheFrom trace [] key e h with h0 | h1
    · simp [assocGet] at h0
    · exact h1

/-- Witness for C6: a single write of 42 at time 5 under key "k". -/
theorem cache_writes_record_insertion_time_witness :
    assocGet (setCache ([] : CacheMap Nat) 5 "k" 42) "k" = some ⟨42, 5⟩ ∧
    ∃ t, (t, CacheOp.write "k" (42 : Nat)) ∈ [((5 : Int), CacheOp.write "k" (42 : Nat))] ∧
      (⟨42, 5⟩ : CacheEntry Nat).timestamp = t :=
  ⟨cache_writes_record_insertion_time.1 Nat [] 5 "k" 42,
   cache_writes_record_insertion_time.2 Nat [((5 : Int), CacheOp.write "k" 42)] "k" ⟨42, 5⟩
     (by decide)⟩

/-- C7: no cache operation removes an entry — a read leaves the cache
untouched (`getCached` treats a stale entry as absent without deleting
it), a write only replaces or appends, so over every sequence of reads
and writes the key set only grows and the size is non-decreasing. -/
theorem cache_never_evicts :
    (∀ (α : Type) (c : CacheMap α) (t : Int) (k : String),
        stepCache c (t, CacheOp.read k) = c) ∧
    (∀ (α : Type) (c : CacheMap α) (op : Int × CacheOp α) (k : String),
        (assocGet c k).isSome = true → (assocGet (stepCache c op) k).isSome = true) ∧
    (∀ (α : Type) (c : CacheMap α) (op : Int × CacheOp α),
        c.length ≤ (stepCache c op).length) ∧
    (∀ (α : Type) (init : CacheMap α) (trace : List (Int × CacheOp α)) (k : String),
        (assocGet init k).isSome = true →
        (assocGet (runCacheFrom init trace) k).isSome = true) ∧
    (∀ (α : Type) (init : CacheMap α) (trace : List (Int × CacheOp α)),
        init.length ≤ (runCacheFrom init trace).length) := by
  refine ⟨fun α c t k => rfl, fun α c op k h => ?_, fun α c op => ?_,
    fun α init trace k h => isSome_assocGet_runCacheFrom trace init k h,
    fun α init trace => length_le_runCacheFrom trace init⟩
  · obtain ⟨t, o⟩ := op
    cases o with
    | read _ => exact h
    | write k0 d => exact isSome_assocGet_mapSet c k0 _ h
  · obtain ⟨t, o⟩ := op
    cases o with
    | read _ => exact Nat.le_refl _
    | write k0 d => exact length_le_mapSet c k0 _

/-- Witness for C7: a cache holding "k" keeps "k" and its size across a
write to a different key. -/
theorem cache_never_evicts_witness :
    (assocGet (stepCache ([("k", ⟨1, 0⟩)] : CacheMap Nat) (7, CacheOp.write "j" 2))
        "k").isSome = true ∧
    ([("k", (⟨1, 0⟩ : CacheEntry Nat))] : CacheMap Nat).length ≤
      (runCacheFrom ([("k", ⟨1, 0⟩)] : CacheMap Nat) [(7, CacheOp.write "j" 2)]).length :=
  ⟨cache_never_evicts.2.1 Nat [("k", ⟨1, 0⟩)] (7, CacheOp.write "j" 2) "k" (by decide),
   cache_never_evicts.2.2.2.2 Nat [("k", ⟨1, 0⟩)] [(7, CacheOp.write "j" 2)]⟩

/-- C8: the two-digit-prefix lookups (`getLocationFromZip`,
`getRepFromMapping`, part_001's `getStateFromZip`) agree on any two ZIP
strings sharing the same first two characters: their output depends only
on the two-digit prefix. -/
theorem zip_lookup_depends_only_on_two_digits (z1 z2 : String)
    (h : strTake 2 z1 = strTake 2 z2) :
    getLocationFromZip z1 = getLocationFromZip z2 ∧
    getRepFromMapping z1 = getRepFromMapping z2 ∧
    getStateFromZip1 z1 = getStateFromZip1 z2 := by
  unfold getLocationFromZip getRepFromMapping getStateFromZip1
  rw [h]
  exact ⟨rfl, rfl, rfl⟩

/-- Witness for C8 on 90210 and 90999, which share the prefix 90. -/
theorem zip_lookup_depends_only_on_two_digits_witness :
    getLocationFromZip "90210" = getLocationFromZip "90999" ∧
    getRepFromMapping "90210" = getRepFromMapping "90999" ∧
    getStateFromZip1 "90210" = getStateFromZip1 "90999" :=
  zip_lookup_depends_only_on_two_digits "90210" "90999" (by decide)

/-- C9: when the address query parameter is absent or empty, both
`/api/representatives` handler variants answer 400 with their error
JSON, make no outbound call, and (in the cached variant) leave the cache
unchanged. -/
theorem falsy_address_rejected (c : CacheMap (List RepV1)) (now : Int)
    (address : Option String) (outcome : Except Unit (List RepV1))
    (apiKey : Option String) (outcome2 : CivicOutcome)
    (h : jsFalsy address = true) :
    representativesHandlerV1 c now address outcome =
      ⟨⟨400, .obj [("error", .str "Address parameter is required")]⟩, c, false⟩ ∧
    representativesHandlerV2 address apiKey outcome2 =
      (⟨400, .obj [("error", .bool true), ("message", .str "Address is required")]⟩,
        false) := by
  constructor
  · simp [representativesHandlerV1, h]
  · simp [representativesHandlerV2, h]

/-- Witness for C9: an absent address parameter. -/
theorem falsy_address_rejected_witness :
    representativesHandlerV1 [] 0 none (.ok []) =
      ⟨⟨400, .obj [("error", .str "Address parameter is required")]⟩, [], false⟩ ∧
    representativesHandlerV2 none none (.throws "boom") =
      (⟨400, .obj [("error", .bool true), ("message", .str "Address is required")]⟩,
        false) :=
  falsy_address_rejected [] 0 none (.ok []) none (.throws "boom") (by decide)

/-- Helper for C10: when the post-cache-check body completes, it returns
a non-empty list (the placeholder is appended to an empty fetch) and
stores exactly that list under `reps-<address>`. -/
lemma fetchAndCache_ok (c : CacheMap (List RepV1)) (now : Int) (address : String)
    (outcome : Except Unit (List RepV1)) (reps : List RepV1) (c1 : CacheMap (List RepV1))
    (h : fetchAndCache c now address outcome = .ok (reps, c1)) :
    reps ≠ [] ∧ c1 = mapSet c ("reps-" ++ address) ⟨reps, now⟩ := by
  cases outcome with
  | error u => simp [fetchAndCache] at h
  | ok fetched =>
    simp only [fetchAndCache, Except.ok.injEq, Prod.mk.injEq] at h
    obtain ⟨h1, h2⟩ := h
    by_cases hf : fetched.isEmpty
    · rw [if_pos hf] at h1
      subst h1
      refine ⟨by simp, ?_⟩
      rw [← h2, if_pos hf]
    · rw [if_neg hf] at h1
      subst h1
      refine ⟨List.isEmpty_eq_false.mp (Bool.of_not_eq_true hf), ?_⟩
      rw [← h2, if_neg hf]

/-- C10: whenever `getRepresentativesByAddress` returns normally, the
returned representatives array is non-empty and is stored in the cache
under `reps-<address>` (given that every existing `reps-` entry was
itself stored by a normal return, hence non-empty). -/
theorem getReps_nonempty_and_cached (c : CacheMap (List RepV1)) (now : Int)
    (address : String) (outcome : Except Unit (List RepV1))
    (hinv : ∀ (a : String) (e : CacheEntry (List RepV1)),
        assocGet c ("reps-" ++ a) = some e → e.data ≠ [])
    (reps : List RepV1) (c1 : CacheMap (List RepV1))
    (h : getRepresentativesByAddress c now address outcome = .ok (reps, c1)) :
    reps ≠ [] ∧ ∃ e, assocGet c1 ("reps-" ++ address) = some e ∧ e.data = reps := by
  unfold getRepresentativesByAddress at h
  split at h
  · rename_i e hc
    by_cases hf : freshEntry now e
    · rw [if_pos hf] at h
      simp only [Except.ok.injEq, Prod.mk.injEq] at h
      obtain ⟨h1, h2⟩ := h
      subst h1
      subst h2
      exact ⟨hinv address e hc, e, hc, rfl⟩
    · rw [if_neg hf] at h
      obtain ⟨hne, hc1⟩ := fetchAndCache_ok c now address outcome reps c1 h
      subst hc1
      exact ⟨hne, ⟨reps, now⟩, assocGet_mapSet_self c _ _, rfl⟩
  · obtain ⟨hne, hc1⟩ := fetchAndCache_ok c now address outcome reps c1 h
    subst hc1
    exact ⟨hne, ⟨reps, now⟩, assocGet_mapSet_self c _ _, rfl⟩

/-- Witness for C10: empty cache, empty fetch — the placeholder entry is
returned and cached. -/
theorem getReps_nonempty_and_cached_witness :
    [unableToLoadRep "x"] ≠ ([] : List RepV1) ∧
    ∃ e, assocGet (mapSet ([] : CacheMap (List RepV1)) ("reps-" ++ "x")
        ⟨[unableToLoadRep "x"], 0⟩) ("reps-" ++ "x") = some e ∧
      e.data = [unableToLoadRep "x"] :=
  getReps_nonempty_and_cached [] 0 "x" (.ok []) (fun _ _ h => nomatch h)
    [unableToLoadRep "x"] (mapSet [] ("reps-" ++ "x") ⟨[unableToLoadRep "x"], 0⟩) rfl

end CongressTracker
